import Mathlib

/-!
Verification of the messaging-frontend admin console against its design
specification.  The development shallowly embeds the stateful React
components as pure state-transition functions: each event handler becomes a
Lean function from the component state (plus the awaited network responses,
passed as explicit arguments) to the next state, paired with flags recording
the observable effects (network requests issued, alerts shown, redirects).
-/

namespace ChatPanel

/-- A chat message as held in the feed window: `id` and `content` are the
fields the feed logic inspects (`created_at`, sender, media metadata are
rendering-only). -/
structure Message where
  id : Nat
  content : String
deriving DecidableEq

/-- The state of the `ChatPanel` component that the feed engine reads and
writes: the message window, the pagination flags, the `isInitialLoad` ref,
and the composer state (`input`, `sending`). -/
structure ChatState where
  messages : List Message
  hasMore : Bool
  loadingMore : Bool
  isInitialLoad : Bool
  input : String
  sending : Bool
deriving DecidableEq

/-- The initial component state: `useState([])`, `useState(false)` for
`hasMore`, `useState(false)` for `loadingMore`, `useRef(true)` for
`isInitialLoad`, `useState('')` for `input`, `useState(false)` for
`sending`. -/
def initialChatState : ChatState :=
  { messages := [], hasMore := false, loadingMore := false,
    isInitialLoad := true, input := "", sending := false }

/-- The `setMessages` updater inside the `new_message` socket handler:
append the fetched newest message unless its id is already present
(`prev.some(m => m.id === newMsg.id)`). -/
def liveAppendMerge (prev : List Message) (newMsg : Message) : List Message :=
  if prev.any (fun m => m.id == newMsg.id) then prev else prev ++ [newMsg]

/-- The `setMessages` updater inside `handleSend` after a successful post:
textually the same merge as the live-append one, applied to the fetched
newest message. -/
def sendMerge (prev : List Message) (sent : Message) : List Message :=
  if prev.any (fun m => m.id == sent.id) then prev else prev ++ [sent]

/-- The `new_message` handler's message update: fetch `limit=1`; if the
response is non-empty, merge its first message into the window. -/
def newMessageHandler (msgs : List Message) (resp : List Message) : List Message :=
  match resp with
  | [] => msgs
  | newMsg :: _ => liveAppendMerge msgs newMsg

/-- The synchronous prefix of `loadMessages` (runs before any fetch is
issued): `setHasMore(false); isInitialLoad.current = true`. -/
def loadMessagesStart (s : ChatState) : ChatState :=
  { s with hasMore := false, isInitialLoad := true }

/-- The `.then` continuation of the messages fetch in `loadMessages`:
`setMessages(data.messages); setHasMore(data.messages.length < data.total)`. -/
def loadMessagesResolve (s : ChatState) (page : List Message) (total : Nat) : ChatState :=
  { s with messages := page, hasMore := decide (page.length < total) }

/-- `loadMessages` end to end: no-op when no conversation is selected;
otherwise reset the pagination state synchronously, then apply the fetch
resolution (`page` is the awaited `data.messages`, `total` is `data.total`). -/
def loadMessages (cid : Option Nat) (s : ChatState) (page : List Message) (total : Nat) :
    ChatState :=
  if cid.isNone then s else loadMessagesResolve (loadMessagesStart s) page total

/-- `loadOlderMessages` as a state transition.  `page` is the awaited
response for `limit=50&before_id=oldestId`.  The returned `Bool` records
whether a fetch was issued at all.  Guard: no-op when no conversation is
selected, a backfill is in flight, `hasMore` is false, or the window is
empty.  Success path: empty page clears `hasMore`; otherwise prepend and
set `hasMore := page.length >= 50`. -/
def loadOlderMessages (cid : Option Nat) (s : ChatState) (page : List Message) :
    ChatState × Bool :=
  if cid.isNone || s.loadingMore || !s.hasMore || s.messages.isEmpty then (s, false)
  else if page.isEmpty then ({ s with hasMore := false }, true)
  else ({ s with messages := page ++ s.messages, hasMore := decide (page.length ≥ 50) }, true)

/-- Observable effects of one `handleSend` invocation: whether the POST was
issued and whether an `alert` was shown. -/
structure SendEffects where
  posted : Bool
  alerted : Bool
deriving DecidableEq

/-- Characters trimmed from both ends, the model of JavaScript
`String.prototype.trim` used by `handleSend`'s guard. -/
def trimChars (l : List Char) : List Char :=
  ((l.dropWhile Char.isWhitespace).reverse.dropWhile Char.isWhitespace).reverse

/-- `input.trim()` from `handleSend`, as a computable function on the
string's characters. -/
def jsTrim (s : String) : String := ⟨trimChars s.data⟩

/-- `handleSend` as a state transition.  `postOk` says whether the POST of
the message succeeds; `fetchResp` is the awaited `limit=1` follow-up fetch
(`none` means that fetch throws).  Guard: no-op when the trimmed input is
empty or a send is in flight.  On POST failure the `catch` alerts and the
input is left untouched; on success the input is cleared and the newest
message is merged in via `sendMerge`. -/
def handleSend (s : ChatState) (postOk : Bool) (fetchResp : Option (List Message)) :
    ChatState × SendEffects :=
  if (jsTrim s.input).isEmpty || s.sending then (s, ⟨false, false⟩)
  else if !postOk then ({ s with sending := false }, ⟨true, true⟩)
  else
    match fetchResp with
    | none => ({ s with input := "", sending := false }, ⟨true, true⟩)
    | some resp =>
      match resp with
      | [] => ({ s with input := "", sending := false }, ⟨true, false⟩)
      | sent :: _ =>
        ({ s with input := "", messages := sendMerge s.messages sent, sending := false },
         ⟨true, false⟩)

/-- The selected file as `handleFileUpload` sees it: MIME type and byte
size. -/
structure FileDesc where
  fileType : String
  size : Nat
deriving DecidableEq

/-- The client-side MIME allow-list in `handleFileUpload`. -/
def allowedUploadTypes : List String :=
  ["image/jpeg", "image/png", "image/gif", "image/webp",
   "video/mp4", "video/quicktime", "video/webm"]

/-- Outcome of `handleFileUpload`'s client-side checks: rejected on type,
rejected on size, or proceeding to the network upload. -/
inductive UploadAction where
  | rejectType
  | rejectSize
  | upload
deriving DecidableEq

/-- `handleFileUpload`'s pre-network checks: type allow-list first
(`allowed.includes(file.type)`), then the 10 MB size cap
(`file.size > 10 * 1024 * 1024`); only then is the upload request built. -/
def handleFileUpload (f : FileDesc) : UploadAction :=
  if f.fileType ∉ allowedUploadTypes then .rejectType
  else if f.size > 10 * 1024 * 1024 then .rejectSize
  else .upload

/-- `true` exactly when the upload path reaches the network (`fetch` of the
multipart request). -/
def uploadIssuesNetwork : UploadAction → Bool
  | .upload => true
  | _ => false

/-- The window ordering invariant from the spec: adjacent messages have
strictly ascending ids. -/
abbrev Ascending (l : List Message) : Prop :=
  List.Chain' (fun a b => a.id < b.id) l

/-- Helper for concrete windows: `n` messages with consecutive ids starting
at `start`. -/
def mkMsgs (start n : Nat) : List Message :=
  (List.range n).map (fun i => { id := start + i, content := "" })

end ChatPanel

namespace ApiClient

/-- The `request` helper's control flow as a function of the HTTP status:
the first component is the result handed to the caller (`.error` models a
thrown `Error`), the second the redirect issued by the helper itself
(`window.location.href = '/admin/login'` on 401). -/
def request (status : Nat) (body : Nat) (errMsg : String) :
    Except String Nat × Option String :=
  if status == 401 then (.error "Unauthorized", some "/admin/login")
  else if 200 ≤ status ∧ status < 300 then (.ok body, none)
  else (.error errMsg, none)

end ApiClient

namespace AuthProvider

/-- The `AuthProvider` component state: `admin` (null until the identity
fetch succeeds), the `loading` flag, and the redirect issued through
`window.location.href` (if any). -/
structure AuthState where
  admin : Option Nat
  loading : Bool
  redirect : Option String
deriving DecidableEq

/-- `useState(null)` for `admin`, `useState(true)` for `loading`, no
redirect issued yet. -/
def authInit : AuthState := { admin := none, loading := true, redirect := none }

/-- Outcome of the one identity fetch `api.get('/me')`. -/
inductive FetchOutcome where
  | success (adminId : Nat)
  | failure
deriving DecidableEq

/-- The settled identity fetch: `.then(setAdmin)` on success;
`.catch(() => { window.location.href = '/admin/login' })` on failure; in
both cases `.finally(() => setLoading(false))`. -/
def resolveIdentity (s : AuthState) : FetchOutcome → AuthState
  | .success a => { s with admin := some a, loading := false }
  | .failure => { s with redirect := some "/admin/login", loading := false }

/-- What `AuthProvider` renders: the spinner placeholder while loading,
otherwise the `AuthContext.Provider` wrapping `children` with the current
`admin` value. -/
inductive AuthRender where
  | placeholder
  | content (admin : Option Nat)
deriving DecidableEq

/-- The component's render function: `if (loading) return <spinner/>;
return <AuthContext.Provider value={admin}>{children}</...>`. -/
def render (s : AuthState) : AuthRender :=
  if s.loading then .placeholder else .content s.admin

/-- The startup identity fetch `api.get('/me')` routed through the
`request` helper at a given HTTP status: on any error result the
component's catch handler runs.  Returns the settled component state and
the redirect issued by the request helper itself. -/
def fetchMe (status : Nat) (adminId : Nat) : AuthState × Option String :=
  let r := ApiClient.request status adminId "Request failed"
  match r.1 with
  | .ok a => (resolveIdentity authInit (.success a), r.2)
  | .error _ => (resolveIdentity authInit .failure, r.2)

end AuthProvider

namespace TemplatesPage

/-- A template record as rendered by the list. -/
structure Template where
  id : Nat
  name : String
  content : String
  category : String
  shortcut : String
deriving DecidableEq

/-- The template edit form fields. -/
structure TemplateForm where
  name : String
  content : String
  category : String
  shortcut : String
deriving DecidableEq

/-- The form's reset value: `{ name: '', content: '', category: 'general',
shortcut: '' }`. -/
def emptyTemplateForm : TemplateForm :=
  { name := "", content := "", category := "general", shortcut := "" }

/-- The `TemplatesPage` component state. -/
structure TemplatesState where
  templates : List Template
  form : TemplateForm
  editId : Option Nat
  showForm : Bool
deriving DecidableEq

/-- `load()`: fetch the full template list and replace local state
(`api.get('/templates').then(setTemplates)`); `fetched` is the awaited
response. -/
def load (s : TemplatesState) (fetched : List Template) : TemplatesState :=
  { s with templates := fetched }

/-- `handleSubmit` after the PUT (edit) or POST (create) resolves: reset
the form, clear `editId`, hide the form, then `load()`.  `fetched` is the
full list the reload returns. -/
def handleSubmit (s : TemplatesState) (fetched : List Template) : TemplatesState :=
  load { s with form := emptyTemplateForm, editId := none, showForm := false } fetched

/-- `handleDelete`: no-op unless the user confirms; after the DELETE
resolves, `load()` with the full list the reload returns. -/
def handleDelete (s : TemplatesState) (confirmed : Bool) (fetched : List Template) :
    TemplatesState :=
  if confirmed then load s fetched else s

end TemplatesPage

namespace ChatPanel

/-- C1: Merging a fetched newest message into the feed window is idempotent
by message id: when the message's id is already present in the window, both
the live-append merge and the post-send merge leave the window unchanged
(hence unchanged in content and length). -/
theorem merge_newest_idempotent (prev : List Message) (m : Message)
    (h : ∃ x ∈ prev, x.id = m.id) :
    liveAppendMerge prev m = prev ∧ sendMerge prev m = prev := by
  have hany : prev.any (fun x => x.id == m.id) = true := by
    rw [List.any_eq_true]
    obtain ⟨x, hx, hid⟩ := h
    exact ⟨x, hx, by simpa using hid⟩
  constructor <;> simp [liveAppendMerge, sendMerge, hany]

/-- Witness for C1 at a concrete window and message sharing id 1. -/
theorem merge_newest_idempotent_witness :
    liveAppendMerge [{ id := 1, content := "a" }] { id := 1, content := "b" } =
      [{ id := 1, content := "a" }] ∧
    sendMerge [{ id := 1, content := "a" }] { id := 1, content := "b" } =
      [{ id := 1, content := "a" }] :=
  merge_newest_idempotent [{ id := 1, content := "a" }] { id := 1, content := "b" }
    ⟨{ id := 1, content := "a" }, by decide⟩

/-- C5: Backfill is guarded: when a backfill is already in flight, or no
more older messages are known to exist, or the window is empty, invoking
`loadOlderMessages` issues no fetch and leaves the whole state (window,
has-more, loading flags) unchanged. -/
theorem load_older_guard_noop (cid : Option Nat) (s : ChatState) (page : List Message)
    (h : s.loadingMore = true ∨ s.hasMore = false ∨ s.messages = []) :
    loadOlderMessages cid s page = (s, false) := by
  unfold loadOlderMessages
  rcases h with h | h | h <;> simp [h]

/-- Witness for C5 at a concrete state with `hasMore = false`. -/
theorem load_older_guard_noop_witness :
    loadOlderMessages (some 1)
        { messages := [{ id := 3, content := "x" }], hasMore := false, loadingMore := false,
          isInitialLoad := false, input := "", sending := false }
        [{ id := 1, content := "y" }] =
      ({ messages := [{ id := 3, content := "x" }], hasMore := false, loadingMore := false,
         isInitialLoad := false, input := "", sending := false }, false) :=
  load_older_guard_noop (some 1) _ _ (Or.inr (Or.inl rfl))

/-- C10: Optimistic send is guarded: when the input is empty or
whitespace-only, or a send is already in flight, `handleSend` issues no
network request and leaves the window, input and sending flag unchanged. -/
theorem send_guard_noop (s : ChatState) (postOk : Bool) (fetchResp : Option (List Message))
    (h : (jsTrim s.input).isEmpty = true ∨ s.sending = true) :
    handleSend s postOk fetchResp = (s, ⟨false, false⟩) := by
  unfold handleSend
  rcases h with h | h <;> simp [h]

/-- Witness for C10 at a concrete state with whitespace-only input. -/
theorem send_guard_noop_witness :
    handleSend
        { messages := [], hasMore := false, loadingMore := false,
          isInitialLoad := true, input := "   ", sending := false }
        true none =
      ({ messages := [], hasMore := false, loadingMore := false,
         isInitialLoad := true, input := "   ", sending := false }, ⟨false, false⟩) :=
  send_guard_noop _ true none (Or.inl (by decide))

/-- C7: File-upload constraints are enforced client-side before any network
call: a file whose MIME type is outside the allow-list never reaches the
network; a file over 10 MB never reaches the network; a file of an allowed
type within the limit proceeds to upload. -/
theorem upload_client_side_constraints (f : FileDesc) :
    (f.fileType ∉ allowedUploadTypes → uploadIssuesNetwork (handleFileUpload f) = false) ∧
    (f.size > 10 * 1024 * 1024 → uploadIssuesNetwork (handleFileUpload f) = false) ∧
    (f.fileType ∈ allowedUploadTypes → f.size ≤ 10 * 1024 * 1024 →
      handleFileUpload f = .upload) := by
  refine ⟨fun h => ?_, fun h => ?_, fun h hs => ?_⟩
  · simp [handleFileUpload, h, uploadIssuesNetwork]
  · by_cases hm : f.fileType ∈ allowedUploadTypes
    · simp [handleFileUpload, hm, h, uploadIssuesNetwork]
    · simp [handleFileUpload, hm, uploadIssuesNetwork]
  · simp [handleFileUpload, h, Nat.not_lt.mpr hs]

/-- Witness for C7 at the spec's three examples: `text/plain`, an 11 MB
PNG, and a 5 MB PNG. -/
theorem upload_client_side_constraints_witness :
    uploadIssuesNetwork (handleFileUpload { fileType := "text/plain", size := 100 }) = false ∧
    uploadIssuesNetwork
        (handleFileUpload { fileType := "image/png", size := 11 * 1024 * 1024 }) = false ∧
    handleFileUpload { fileType := "image/png", size := 5 * 1024 * 1024 } = .upload :=
  ⟨(upload_client_side_constraints _).1 (by decide),
   (upload_client_side_constraints _).2.1 (by decide),
   (upload_client_side_constraints _).2.2 (by decide) (by decide)⟩

end ChatPanel

namespace ChatPanel

/-- C2: The feed window stays strictly ascending by message id: if the
window is ascending, any backfill whose returned page is ascending with all
ids smaller than the window's oldest id leaves the window ascending; and
the live-append merge of a message with id greater than every held id also
preserves the invariant. -/
theorem window_ordering_invariant (cid : Option Nat) (s : ChatState) (page : List Message)
    (hs : Ascending s.messages) (hp : Ascending page)
    (hlt : ∀ x ∈ page, ∀ o ∈ s.messages.head?, x.id < o.id) :
    Ascending (loadOlderMessages cid s page).1.messages ∧
    ∀ m : Message, (∀ x ∈ s.messages, x.id < m.id) →
      Ascending (liveAppendMerge s.messages m) := by
  constructor
  · unfold loadOlderMessages
    by_cases hg : (cid.isNone || s.loadingMore || !s.hasMore || s.messages.isEmpty) = true
    · simpa [hg] using hs
    · rw [if_neg (by simpa using hg)]
      by_cases hpe : page.isEmpty = true
      · simpa [hpe] using hs
      · rw [if_neg (by simpa using hpe)]
        refine List.Chain'.append hp hs ?_
        intro x hx y hy
        obtain ⟨hne, hxe⟩ := List.mem_getLast?_eq_getLast hx
        exact hlt x (hxe ▸ List.getLast_mem hne) y hy
  · intro m hm
    have hany : (s.messages.any fun x => x.id == m.id) = false := by
      rw [List.any_eq_false]
      intro x hx
      simp only [beq_iff_eq]
      exact Nat.ne_of_lt (hm x hx)
    unfold liveAppendMerge
    rw [hany]
    simp only [Bool.false_eq_true, if_false]
    refine List.Chain'.append hs (List.chain'_singleton m) ?_
    intro x hx y hy
    obtain ⟨hne, hxe⟩ := List.mem_getLast?_eq_getLast hx
    have hym : m = y := by simpa using hy
    exact hym ▸ hm x (hxe ▸ List.getLast_mem hne)

/-- Witness for C2: a concrete ascending window, a backfill page of smaller
ids, and a live message with a larger id. -/
theorem window_ordering_invariant_witness :
    Ascending (loadOlderMessages (some 1)
        { messages := [{ id := 10, content := "" }, { id := 11, content := "" }],
          hasMore := true, loadingMore := false, isInitialLoad := false,
          input := "", sending := false }
        [{ id := 5, content := "" }, { id := 6, content := "" }]).1.messages ∧
    Ascending (liveAppendMerge
        [{ id := 10, content := "" }, { id := 11, content := "" }]
        { id := 12, content := "" }) :=
  ⟨(window_ordering_invariant (some 1)
      { messages := [{ id := 10, content := "" }, { id := 11, content := "" }],
        hasMore := true, loadingMore := false, isInitialLoad := false,
        input := "", sending := false }
      [{ id := 5, content := "" }, { id := 6, content := "" }]
      (by simp [List.chain'_cons]) (by simp [List.chain'_cons]) (by decide)).1,
   (window_ordering_invariant (some 1)
      { messages := [{ id := 10, content := "" }, { id := 11, content := "" }],
        hasMore := true, loadingMore := false, isInitialLoad := false,
        input := "", sending := false }
      [{ id := 5, content := "" }, { id := 6, content := "" }]
      (by simp [List.chain'_cons]) (by simp [List.chain'_cons]) (by decide)).2
     { id := 12, content := "" } (by decide)⟩

/-- C3: With page size 50 and a conversation of 120 messages: the initial
load (has-more := returned < total) gives has-more = true; a backfill
returning 50 messages keeps has-more = true; a backfill returning fewer
than 50 sets has-more = false. -/
theorem pagination_has_more_scenario (p0 p1 p2 : List Message)
    (h0 : p0.length = 50) (h1 : p1.length = 50) (h2 : p2.length < 50) :
    (loadMessages (some 1) initialChatState p0 120).hasMore = true ∧
    ((loadOlderMessages (some 1) (loadMessages (some 1) initialChatState p0 120) p1).1).hasMore
      = true ∧
    ((loadOlderMessages (some 1)
        (loadOlderMessages (some 1) (loadMessages (some 1) initialChatState p0 120) p1).1
        p2).1).hasMore = false := by
  have hne0 : p0.isEmpty = false := by cases p0 <;> simp_all
  have hne1 : p1.isEmpty = false := by cases p1 <;> simp_all
  have hs1 : loadMessages (some 1) initialChatState p0 120 =
      { messages := p0, hasMore := true, loadingMore := false, isInitialLoad := true,
        input := "", sending := false } := by
    simp [loadMessages, loadMessagesResolve, loadMessagesStart, initialChatState, h0]
  have hs2 : (loadOlderMessages (some 1) (loadMessages (some 1) initialChatState p0 120) p1).1 =
      { messages := p1 ++ p0, hasMore := true, loadingMore := false, isInitialLoad := true,
        input := "", sending := false } := by
    rw [hs1]
    simp [loadOlderMessages, hne0, hne1, h1]
  refine ⟨by rw [hs1], by rw [hs2], ?_⟩
  rw [hs2]
  have hne10 : ¬(p1 = [] ∧ p0 = []) := fun h => by simp [h.1] at hne1
  cases p2 with
  | nil => simp [loadOlderMessages, hne10]
  | cons c t =>
    have hlen : ¬ ((c :: t).length ≥ 50) := by simp only [List.length_cons] at h2 ⊢; omega
    simp [loadOlderMessages, hne10, hlen]
    simp only [List.length_cons] at h2
    omega

/-- Witness for C3 at concrete pages: 50 newest messages, a full backfill
page of 50, then a short page of 20. -/
theorem pagination_has_more_scenario_witness :
    (loadMessages (some 1) initialChatState (mkMsgs 100 50) 120).hasMore = true ∧
    ((loadOlderMessages (some 1)
        (loadMessages (some 1) initialChatState (mkMsgs 100 50) 120) (mkMsgs 50 50)).1).hasMore
      = true ∧
    ((loadOlderMessages (some 1)
        (loadOlderMessages (some 1)
          (loadMessages (some 1) initialChatState (mkMsgs 100 50) 120) (mkMsgs 50 50)).1
        (mkMsgs 30 20)).1).hasMore = false :=
  pagination_has_more_scenario (mkMsgs 100 50) (mkMsgs 50 50) (mkMsgs 30 20)
    (by simp [mkMsgs]) (by simp [mkMsgs]) (by simp [mkMsgs])

/-- C4: Switching the selected conversation resets the pagination state
(has-more = false, first-load = true) synchronously, before any fetch for
the new conversation resolves, and the resolved state of the new load is
independent of whatever has-more / first-load values the previous
conversation left behind. -/
theorem conversation_switch_resets_pagination (cid : Nat) (s : ChatState)
    (page : List Message) (total : Nat) :
    (loadMessagesStart s).hasMore = false ∧
    (loadMessagesStart s).isInitialLoad = true ∧
    ∀ b b' : Bool,
      loadMessages (some cid) { s with hasMore := b, isInitialLoad := b' } page total =
        loadMessages (some cid) s page total :=
  ⟨rfl, rfl, fun _ _ => rfl⟩

/-- C8: When the optimistic send's POST fails, the failure is surfaced via
an alert and the input text is not cleared: the input still holds the typed
text (and the window is untouched) after the failed send completes. -/
theorem send_failure_preserves_input (s : ChatState) (fetchResp : Option (List Message))
    (hin : (jsTrim s.input).isEmpty = false) (hsend : s.sending = false) :
    (handleSend s false fetchResp).1.input = s.input ∧
    (handleSend s false fetchResp).1.messages = s.messages ∧
    (handleSend s false fetchResp).2.alerted = true := by
  simp [handleSend, hin, hsend]

/-- Witness for C8 at a concrete state with typed text "hello". -/
theorem send_failure_preserves_input_witness :
    (handleSend
        { messages := [], hasMore := false, loadingMore := false,
          isInitialLoad := true, input := "hello", sending := false } false none).1.input
      = "hello" ∧
    (handleSend
        { messages := [], hasMore := false, loadingMore := false,
          isInitialLoad := true, input := "hello", sending := false } false none).1.messages
      = [] ∧
    (handleSend
        { messages := [], hasMore := false, loadingMore := false,
          isInitialLoad := true, input := "hello", sending := false } false none).2.alerted
      = true :=
  send_failure_preserves_input
    { messages := [], hasMore := false, loadingMore := false,
      isInitialLoad := true, input := "hello", sending := false } none (by decide) rfl

end ChatPanel

namespace TemplatesPage

/-- C9: In the templates CRUD view, every successful mutation (create or
update via `handleSubmit`, delete via confirmed `handleDelete`) ends in an
unconditional full reload: the local list state equals the fresh full fetch
result, independent of the previous local list. -/
theorem mutation_full_reload (s : TemplatesState) (fetched : List Template) :
    (handleSubmit s fetched).templates = fetched ∧
    (handleDelete s true fetched).templates = fetched :=
  ⟨rfl, rfl⟩

end TemplatesPage

namespace AuthProvider

/-- C6 counterexample: on a simulated 401 identity fetch the guard does set
the redirect to the external login location, but the `finally` clears
`loading`, so the component goes on to render its children (with a null
identity) instead of withholding them — refuting "does not render its
children / no protected content is rendered after the failed fetch
resolves". -/
theorem auth_failure_renders_children_counterexample :
    (fetchMe 401 7).1.redirect = some "/admin/login" ∧
    (fetchMe 401 7).2 = some "/admin/login" ∧
    render (fetchMe 401 7).1 = .content none := by decide

/-- C6 amended: for every identity fetch that fails (including a simulated
401), the guard redirects to the external login location and never exposes
an identity, but once the failed fetch resolves the loading flag clears and
its children are rendered with a null identity until the browser completes
the navigation. -/
theorem auth_failure_redirects_and_renders (s : AuthState) :
    (resolveIdentity s .failure).redirect = some "/admin/login" ∧
    (resolveIdentity s .failure).loading = false ∧
    (resolveIdentity s .failure).admin = s.admin ∧
    render (resolveIdentity s .failure) = .content s.admin :=
  ⟨rfl, rfl, rfl, rfl⟩

end AuthProvider
